import Mathlib

/-!
Shallow embedding of `src/wiotp/sdk/api/dsc/connectors.py` (IBM Watson IoT
Python SDK, historian-connector client).

JSON bodies and query/filter mappings are modelled as association lists of
`String × JsonValue`, mirroring Python dicts in insertion order; lookups use
`List.lookup` (first match, as dict keys are unique).  Exceptions raised by the
Python code (`KeyError`, `ApiException`) are modelled with `Except PyErr`.
Operations that talk to the HTTP transport (`apiClient.post` / `put`) are
embedded as pure functions that take the transport's response for the single
request they issue and also return the list of requests issued, so that
request bodies, target URLs and the absence of requests are all provable.
-/

/-- JSON-like values exchanged with the REST API. -/
inductive JsonValue where
  | str (s : String)
  | bool (b : Bool)
  | num (n : Int)
  | obj (fields : List (String × JsonValue))
  | null

/-- An HTTP response as seen by this module: a status code and a decoded
JSON object body (`r.status_code` and `r.json()` in the source). -/
structure HttpResponse where
  status_code : Nat
  json : List (String × JsonValue)

/-- Errors raised by the embedded code: Python `KeyError` (missing dict key)
and `wiotp.sdk.exceptions.ApiException` carrying the raw response. -/
inductive PyErr where
  | keyNotFound (key : String)
  | apiException (response : HttpResponse)

/-- A request issued to the `apiClient` transport collaborator. -/
inductive HttpReq where
  | get (url : String) (parameters : List (String × JsonValue))
  | post (url : String) (body : List (String × JsonValue))
  | put (url : String) (body : List (String × JsonValue))

/-- `Connector` from the source: a dict-backed resource item.  `dict.__init__
(self, **kwargs)` makes the kwargs the backing mapping (`fields`); the
constructor also builds the `destinations` and `rules` sub-resource handles
from `kwargs["id"]` and `kwargs["type"]`, whose captured arguments we keep. -/
structure Connector where
  fields : List (String × JsonValue)
  destinationsConnectorId : JsonValue
  destinationsConnectorType : JsonValue
  rulesConnectorId : JsonValue

/-- `Connector.__init__`: evaluates `kwargs["id"]` then `kwargs["type"]`
(for the `Destinations` handle), then `kwargs["id"]` again (for the
`ForwardingRules` handle), then stores the kwargs as the backing dict.
A missing key raises `KeyError` before construction completes. -/
def Connector.construct (kwargs : List (String × JsonValue)) : Except PyErr Connector :=
  match kwargs.lookup "id" with
  | none => Except.error (PyErr.keyNotFound "id")
  | some idValue =>
    match kwargs.lookup "type" with
    | none => Except.error (PyErr.keyNotFound "type")
    | some typeValue =>
      Except.ok
        { fields := kwargs
          destinationsConnectorId := idValue
          destinationsConnectorType := typeValue
          rulesConnectorId := idValue }

/-- Property `Connector.serviceId`: `return self["serviceId"]`. -/
def Connector.serviceId (c : Connector) : Except PyErr JsonValue :=
  match c.fields.lookup "serviceId" with
  | some v => Except.ok v
  | none => Except.error (PyErr.keyNotFound "serviceId")

/-- Property `Connector.connectorType`: `return self["type"]`. -/
def Connector.connectorType (c : Connector) : Except PyErr JsonValue :=
  match c.fields.lookup "type" with
  | some v => Except.ok v
  | none => Except.error (PyErr.keyNotFound "type")

/-- Property `Connector.configuration`: `if "configuration" in self: return
self["configuration"] else: return None`.  Total, never raises. -/
def Connector.configuration (c : Connector) : Option JsonValue :=
  match c.fields.lookup "configuration" with
  | some v => some v
  | none => none

/-- Property `Connector.adminDisabled`: `return self["adminDisabled"]`. -/
def Connector.adminDisabled (c : Connector) : Except PyErr JsonValue :=
  match c.fields.lookup "adminDisabled" with
  | some v => Except.ok v
  | none => Except.error (PyErr.keyNotFound "adminDisabled")

/-- Property `Connector.enabled`: `return self["enabled"]`. -/
def Connector.enabled (c : Connector) : Except PyErr JsonValue :=
  match c.fields.lookup "enabled" with
  | some v => Except.ok v
  | none => Except.error (PyErr.keyNotFound "enabled")

/-- Property `Connector.timezone`: `return self["timezone"]`. -/
def Connector.timezone (c : Connector) : Except PyErr JsonValue :=
  match c.fields.lookup "timezone" with
  | some v => Except.ok v
  | none => Except.error (PyErr.keyNotFound "timezone")

/-- Reading the `serviceId` property as a state-passing method call: the
getter body only reads the dict, so the receiver comes back unchanged. -/
def Connector.getServiceId (c : Connector) : Except PyErr JsonValue × Connector :=
  (Connector.serviceId c, c)

/-- Reading the `connectorType` property as a state-passing method call. -/
def Connector.getConnectorType (c : Connector) : Except PyErr JsonValue × Connector :=
  (Connector.connectorType c, c)

/-- Reading the `configuration` property as a state-passing method call. -/
def Connector.getConfiguration (c : Connector) : Option JsonValue × Connector :=
  (Connector.configuration c, c)

/-- Reading the `adminDisabled` property as a state-passing method call. -/
def Connector.getAdminDisabled (c : Connector) : Except PyErr JsonValue × Connector :=
  (Connector.adminDisabled c, c)

/-- Reading the `enabled` property as a state-passing method call. -/
def Connector.getEnabled (c : Connector) : Except PyErr JsonValue × Connector :=
  (Connector.enabled c, c)

/-- Reading the `timezone` property as a state-passing method call. -/
def Connector.getTimezone (c : Connector) : Except PyErr JsonValue × Connector :=
  (Connector.timezone c, c)

/-- `IterableConnectorList.__init__` forwards to `IterableList` with
`sort=None`, the given `filters`, and `passApiClient=True`; we keep exactly
the data it captures. -/
structure IterableConnectorList where
  url : String
  filters : List (String × JsonValue)
  sort : Option String
  passApiClient : Bool

/-- `Connectors.allHistorianConnectorsUrl`. -/
def Connectors.allHistorianConnectorsUrl : String := "api/v0002/historianconnectors"

/-- `Connectors.oneHistorianConnectorUrl % connectorId`. -/
def Connectors.oneHistorianConnectorUrl (connectorId : String) : String :=
  "api/v0002/historianconnectors/" ++ connectorId

/-- The `queryParms` dict built by `Connectors.find`.  Each `if arg:` test is
Python truthiness: `None`, `False` and the empty string are all falsy, so a
key is inserted only for a supplied, truthy argument. -/
def Connectors.findQueryParms (nameFilter typeFilter : Option String)
    (enabledFilter : Option Bool) (serviceId : Option String) :
    List (String × JsonValue) :=
  let q0 : List (String × JsonValue) := []
  let q1 := match nameFilter with
    | some s => if s ≠ "" then q0 ++ [("name", JsonValue.str s)] else q0
    | none => q0
  let q2 := match typeFilter with
    | some s => if s ≠ "" then q1 ++ [("type", JsonValue.str s)] else q1
    | none => q1
  let q3 := match enabledFilter with
    | some b => if b then q2 ++ [("enabled", JsonValue.bool b)] else q2
    | none => q2
  let q4 := match serviceId with
    | some s => if s ≠ "" then q3 ++ [("serviceId", JsonValue.str s)] else q3
    | none => q3
  q4

/-- `Connectors.find`: builds `queryParms` and returns
`IterableConnectorList(self._apiClient, self.allHistorianConnectorsUrl,
filters=queryParms)`.  The second component is the list of HTTP requests the
call itself issues: the body contains no transport call, so it is empty. -/
def Connectors.find (nameFilter typeFilter : Option String)
    (enabledFilter : Option Bool) (serviceId : Option String) :
    IterableConnectorList × List HttpReq :=
  ({ url := Connectors.allHistorianConnectorsUrl
     filters := Connectors.findQueryParms nameFilter typeFilter enabledFilter serviceId
     sort := none
     passApiClient := true }, [])

/-- The `connector` body dict built by `Connectors.create`.  Note that the
source never inserts the `configuration` argument into this dict. -/
def Connectors.createBody (name ty serviceId timezone description : String)
    (enabled : Bool) (configuration : Option JsonValue) :
    List (String × JsonValue) :=
  [("name", JsonValue.str name),
   ("type", JsonValue.str ty),
   ("description", JsonValue.str description),
   ("serviceId", JsonValue.str serviceId),
   ("timezone", JsonValue.str timezone),
   ("enabled", JsonValue.bool enabled)]

/-- `Connectors.create`: POSTs the body to the collection URL; on status 201
wraps `r.json()` as a `Connector`, otherwise raises `ApiException(r)`.
`resp` is the transport's response to the single POST issued. -/
def Connectors.create (name ty serviceId timezone description : String)
    (enabled : Bool) (configuration : Option JsonValue) (resp : HttpResponse) :
    List HttpReq × Except PyErr Connector :=
  let connector := Connectors.createBody name ty serviceId timezone description enabled configuration
  let url := "api/v0002/historianconnectors"
  ([HttpReq.post url connector],
   if resp.status_code = 201 then Connector.construct resp.json
   else Except.error (PyErr.apiException resp))

/-- The `connectorBody` dict built by `Connectors.update`: the seven required
entries in source insertion order, then `configuration` appended exactly when
the argument is not the `None` sentinel (`if configuration != None:`). -/
def Connectors.updateBody (connectorId serviceId name ty description timezone : String)
    (enabled : Bool) (configuration : Option JsonValue) :
    List (String × JsonValue) :=
  [("id", JsonValue.str connectorId),
   ("name", JsonValue.str name),
   ("type", JsonValue.str ty),
   ("serviceId", JsonValue.str serviceId),
   ("description", JsonValue.str description),
   ("timezone", JsonValue.str timezone),
   ("enabled", JsonValue.bool enabled)]
  ++ (match configuration with
      | some c => [("configuration", c)]
      | none => [])

/-- `Connectors.update`: PUTs the body to the single-item URL
`"api/v0002/historianconnectors/%s" % connectorId`; on status 200 wraps
`r.json()` as a `Connector`, otherwise raises `ApiException(r)`. -/
def Connectors.update (connectorId serviceId name ty description timezone : String)
    (enabled : Bool) (configuration : Option JsonValue) (resp : HttpResponse) :
    List HttpReq × Except PyErr Connector :=
  let url := "api/v0002/historianconnectors/" ++ connectorId
  let connectorBody := Connectors.updateBody connectorId serviceId name ty description timezone enabled configuration
  ([HttpReq.put url connectorBody],
   if resp.status_code = 200 then Connector.construct resp.json
   else Except.error (PyErr.apiException resp))

/-- A sample backing mapping used by concrete witnesses. -/
def sampleFields : List (String × JsonValue) :=
  [("id", JsonValue.str "c1"),
   ("type", JsonValue.str "cloudant"),
   ("configuration", JsonValue.obj [("x", JsonValue.num 1)])]

/-- A sample resource item used by concrete witnesses. -/
def sampleConnector : Connector :=
  { fields := sampleFields
    destinationsConnectorId := JsonValue.str "c1"
    destinationsConnectorType := JsonValue.str "cloudant"
    rulesConnectorId := JsonValue.str "c1" }

/-- A second sample item sharing `sampleConnector`'s backing mapping but
differing in a sub-resource handle, used to witness that accessors depend
only on the backing mapping. -/
def sampleConnectorVariant : Connector :=
  { fields := sampleFields
    destinationsConnectorId := JsonValue.str "c1"
    destinationsConnectorType := JsonValue.str "cloudant"
    rulesConnectorId := JsonValue.null }

/-- Claim C1, counterexample: the claim requires every supplied value to be
inserted, including `enabledFilter=False`, but `find(enabledFilter=False)`
builds an empty filter mapping, not `{enabled: False}`: the `if enabledFilter:`
test drops falsy values. -/
theorem find_filter_false_dropped :
    Connectors.findQueryParms none none (some false) none = [] ∧
      ([] : List (String × JsonValue)) ≠ [("enabled", JsonValue.bool false)] :=
  ⟨rfl, fun h => List.noConfusion h⟩

/-- Claim C1 (amended): the filter mapping built by `Connectors.find` holds a
key exactly for each truthy argument (supplied and neither `False` nor the
empty string), under its key with the supplied value and with no other keys;
with no arguments it is empty. -/
theorem find_filter_truthy (nf tf : Option String) (ef : Option Bool) (sid : Option String) :
    ((Connectors.findQueryParms nf tf ef sid).lookup "name" =
      match nf with
      | some s => if s ≠ "" then some (JsonValue.str s) else none
      | none => none)
    ∧ ((Connectors.findQueryParms nf tf ef sid).lookup "type" =
      match tf with
      | some s => if s ≠ "" then some (JsonValue.str s) else none
      | none => none)
    ∧ ((Connectors.findQueryParms nf tf ef sid).lookup "enabled" =
      match ef with
      | some b => if b then some (JsonValue.bool b) else none
      | none => none)
    ∧ ((Connectors.findQueryParms nf tf ef sid).lookup "serviceId" =
      match sid with
      | some s => if s ≠ "" then some (JsonValue.str s) else none
      | none => none)
    ∧ Connectors.findQueryParms none none none none = []
    ∧ (Connectors.findQueryParms nf tf ef sid).all
        (fun kv => kv.1 == "name" || kv.1 == "type" || kv.1 == "enabled" || kv.1 == "serviceId")
          = true := by
  cases nf <;> cases tf <;> cases ef <;> cases sid <;>
    simp only [Connectors.findQueryParms] <;>
    (try split_ifs) <;>
    refine ⟨?_, ?_, ?_, ?_, ?_, ?_⟩ <;> first | rfl | trivial

/-- Claim C2: evaluation of the body `create` actually builds.  The six
required fields carry the supplied values, but even with a supplied
`configuration` argument the body has no `configuration` key — the source
drops the argument (the failing input of the recorded defect). -/
theorem create_body_fields (name ty serviceId timezone description : String)
    (enabled : Bool) (configuration : Option JsonValue) :
    ((Connectors.createBody name ty serviceId timezone description enabled
        configuration).lookup "name" = some (JsonValue.str name))
    ∧ ((Connectors.createBody name ty serviceId timezone description enabled
        configuration).lookup "type" = some (JsonValue.str ty))
    ∧ ((Connectors.createBody name ty serviceId timezone description enabled
        configuration).lookup "description" = some (JsonValue.str description))
    ∧ ((Connectors.createBody name ty serviceId timezone description enabled
        configuration).lookup "serviceId" = some (JsonValue.str serviceId))
    ∧ ((Connectors.createBody name ty serviceId timezone description enabled
        configuration).lookup "timezone" = some (JsonValue.str timezone))
    ∧ ((Connectors.createBody name ty serviceId timezone description enabled
        configuration).lookup "enabled" = some (JsonValue.bool enabled))
    ∧ ((Connectors.createBody name ty serviceId timezone description enabled
        configuration).lookup "configuration" = none) :=
  ⟨rfl, rfl, rfl, rfl, rfl, rfl, rfl⟩

/-- Claim C5: the PUT body built by `update` carries `id` (the connectorId),
`name`, `type`, `serviceId`, `description`, `timezone` and `enabled` with the
supplied values, and its `configuration` entry is exactly the optional
argument: present with the supplied value when not the `None` sentinel,
absent otherwise. -/
theorem update_body_fields (connectorId serviceId name ty description timezone : String)
    (enabled : Bool) (configuration : Option JsonValue) :
    ((Connectors.updateBody connectorId serviceId name ty description timezone enabled
        configuration).lookup "id" = some (JsonValue.str connectorId))
    ∧ ((Connectors.updateBody connectorId serviceId name ty description timezone enabled
        configuration).lookup "name" = some (JsonValue.str name))
    ∧ ((Connectors.updateBody connectorId serviceId name ty description timezone enabled
        configuration).lookup "type" = some (JsonValue.str ty))
    ∧ ((Connectors.updateBody connectorId serviceId name ty description timezone enabled
        configuration).lookup "serviceId" = some (JsonValue.str serviceId))
    ∧ ((Connectors.updateBody connectorId serviceId name ty description timezone enabled
        configuration).lookup "description" = some (JsonValue.str description))
    ∧ ((Connectors.updateBody connectorId serviceId name ty description timezone enabled
        configuration).lookup "timezone" = some (JsonValue.str timezone))
    ∧ ((Connectors.updateBody connectorId serviceId name ty description timezone enabled
        configuration).lookup "enabled" = some (JsonValue.bool enabled))
    ∧ ((Connectors.updateBody connectorId serviceId name ty description timezone enabled
        configuration).lookup "configuration" = configuration) := by
  cases configuration <;> exact ⟨rfl, rfl, rfl, rfl, rfl, rfl, rfl, rfl⟩

/-- Claim C8: `find` issues no HTTP request — its request trace is empty for
every combination of arguments — and only constructs an
`IterableConnectorList` targeting the collection URL
`api/v0002/historianconnectors` with the built filter mapping, `sort=None`
and `passApiClient=True`. -/
theorem find_issues_no_request (nf tf : Option String) (ef : Option Bool) (sid : Option String) :
    ((Connectors.find nf tf ef sid).2 = [])
    ∧ ((Connectors.find nf tf ef sid).1.url = "api/v0002/historianconnectors")
    ∧ ((Connectors.find nf tf ef sid).1.filters = Connectors.findQueryParms nf tf ef sid)
    ∧ ((Connectors.find nf tf ef sid).1.sort = none)
    ∧ ((Connectors.find nf tf ef sid).1.passApiClient = true) :=
  ⟨rfl, rfl, rfl, rfl, rfl⟩

/-- Claim C3: `create` succeeds exactly when the POST response status is 201,
returning the decoded body wrapped as a `Connector` whose backing mapping is
that body; on any other status it returns no item and raises `ApiException`
carrying the raw response.  The body is assumed to carry the `id` and `type`
entries the wrapper's constructor consumes. -/
theorem create_status_gate (name ty serviceId timezone description : String)
    (enabled : Bool) (configuration : Option JsonValue) (resp : HttpResponse)
    (idv tyv : JsonValue)
    (hid : resp.json.lookup "id" = some idv)
    (hty : resp.json.lookup "type" = some tyv) :
    (resp.status_code = 201 →
      (Connectors.create name ty serviceId timezone description enabled configuration resp).2
        = Except.ok
            { fields := resp.json
              destinationsConnectorId := idv
              destinationsConnectorType := tyv
              rulesConnectorId := idv })
    ∧ (resp.status_code ≠ 201 →
      (Connectors.create name ty serviceId timezone description enabled configuration resp).2
        = Except.error (PyErr.apiException resp)) := by
  constructor
  · intro h
    simp [Connectors.create, h, Connector.construct, hid, hty]
  · intro h
    simp [Connectors.create, h]

/-- Concrete check of the `create` status gate: a 201 response with body
`{id: "c1", type: "cloudant"}` yields the wrapped item; a 400 response
raises the `ApiException` carrying it. -/
theorem create_status_gate_witness :
    ((Connectors.create "n" "cloudant" "svc1" "UTC" "desc" true none
        { status_code := 201
          json := [("id", JsonValue.str "c1"), ("type", JsonValue.str "cloudant")] }).2
      = Except.ok
          { fields := [("id", JsonValue.str "c1"), ("type", JsonValue.str "cloudant")]
            destinationsConnectorId := JsonValue.str "c1"
            destinationsConnectorType := JsonValue.str "cloudant"
            rulesConnectorId := JsonValue.str "c1" })
    ∧ ((Connectors.create "n" "cloudant" "svc1" "UTC" "desc" true none
        { status_code := 400
          json := [("id", JsonValue.str "c1"), ("type", JsonValue.str "cloudant")] }).2
      = Except.error (PyErr.apiException
          { status_code := 400
            json := [("id", JsonValue.str "c1"), ("type", JsonValue.str "cloudant")] })) :=
  ⟨(create_status_gate "n" "cloudant" "svc1" "UTC" "desc" true none
      { status_code := 201
        json := [("id", JsonValue.str "c1"), ("type", JsonValue.str "cloudant")] }
      (JsonValue.str "c1") (JsonValue.str "cloudant") rfl rfl).1 rfl,
   (create_status_gate "n" "cloudant" "svc1" "UTC" "desc" true none
      { status_code := 400
        json := [("id", JsonValue.str "c1"), ("type", JsonValue.str "cloudant")] }
      (JsonValue.str "c1") (JsonValue.str "cloudant") rfl rfl).2 (by decide)⟩

/-- Claim C4: `update` issues a single PUT to
`api/v0002/historianconnectors/{connectorId}` and succeeds exactly when the
response status is 200, returning the decoded body wrapped as a `Connector`;
every other status — with no 4xx/5xx distinction — yields
`ApiException` built from the raw response. -/
theorem update_status_gate (connectorId serviceId name ty description timezone : String)
    (enabled : Bool) (configuration : Option JsonValue) (resp : HttpResponse)
    (idv tyv : JsonValue)
    (hid : resp.json.lookup "id" = some idv)
    (hty : resp.json.lookup "type" = some tyv) :
    ((Connectors.update connectorId serviceId name ty description timezone enabled
        configuration resp).1
      = [HttpReq.put ("api/v0002/historianconnectors/" ++ connectorId)
          (Connectors.updateBody connectorId serviceId name ty description timezone enabled
            configuration)])
    ∧ (resp.status_code = 200 →
      (Connectors.update connectorId serviceId name ty description timezone enabled
          configuration resp).2
        = Except.ok
            { fields := resp.json
              destinationsConnectorId := idv
              destinationsConnectorType := tyv
              rulesConnectorId := idv })
    ∧ (resp.status_code ≠ 200 →
      (Connectors.update connectorId serviceId name ty description timezone enabled
          configuration resp).2
        = Except.error (PyErr.apiException resp)) := by
  refine ⟨rfl, ?_, ?_⟩
  · intro h
    simp [Connectors.update, h, Connector.construct, hid, hty]
  · intro h
    simp [Connectors.update, h]

/-- Concrete check of the `update` status gate: a 200 response with body
`{id: "c1", type: "cloudant"}` yields the wrapped item; a 500 response
raises the `ApiException` carrying it, through the same path a 4xx takes. -/
theorem update_status_gate_witness :
    ((Connectors.update "c1" "svc1" "n" "cloudant" "desc" "UTC" true none
        { status_code := 200
          json := [("id", JsonValue.str "c1"), ("type", JsonValue.str "cloudant")] }).2
      = Except.ok
          { fields := [("id", JsonValue.str "c1"), ("type", JsonValue.str "cloudant")]
            destinationsConnectorId := JsonValue.str "c1"
            destinationsConnectorType := JsonValue.str "cloudant"
            rulesConnectorId := JsonValue.str "c1" })
    ∧ ((Connectors.update "c1" "svc1" "n" "cloudant" "desc" "UTC" true none
        { status_code := 500
          json := [("id", JsonValue.str "c1"), ("type", JsonValue.str "cloudant")] }).2
      = Except.error (PyErr.apiException
          { status_code := 500
            json := [("id", JsonValue.str "c1"), ("type", JsonValue.str "cloudant")] })) :=
  ⟨(update_status_gate "c1" "svc1" "n" "cloudant" "desc" "UTC" true none
      { status_code := 200
        json := [("id", JsonValue.str "c1"), ("type", JsonValue.str "cloudant")] }
      (JsonValue.str "c1") (JsonValue.str "cloudant") rfl rfl).2.1 rfl,
   (update_status_gate "c1" "svc1" "n" "cloudant" "desc" "UTC" true none
      { status_code := 500
        json := [("id", JsonValue.str "c1"), ("type", JsonValue.str "cloudant")] }
      (JsonValue.str "c1") (JsonValue.str "cloudant") rfl rfl).2.2 (by decide)⟩

/-- Claim C6: the `configuration` accessor returns exactly the backing
mapping's `configuration` value when present and the explicit no-value
result when absent; being total into `Option`, it raises in neither case. -/
theorem configuration_accessor_total (c : Connector) :
    (∀ v, c.fields.lookup "configuration" = some v → Connector.configuration c = some v)
    ∧ (c.fields.lookup "configuration" = none → Connector.configuration c = none) := by
  constructor
  · intro v h
    simp [Connector.configuration, h]
  · intro h
    simp [Connector.configuration, h]

/-- Concrete check of the `configuration` accessor on an item whose backing
mapping carries a `configuration` object. -/
theorem configuration_accessor_total_witness :
    Connector.configuration sampleConnector = some (JsonValue.obj [("x", JsonValue.num 1)]) :=
  (configuration_accessor_total sampleConnector).1 _ rfl

/-- Claim C7: each required-field accessor (`serviceId`, `connectorType`,
`adminDisabled`, `enabled`, `timezone`) raises a key-not-found error exactly
when its backing field (`serviceId`, `type`, `adminDisabled`, `enabled`,
`timezone` respectively) is absent, and returns exactly the mapping's value
when it is present. -/
theorem required_accessors_key_errors (c : Connector) :
    ((c.fields.lookup "serviceId" = none →
        Connector.serviceId c = Except.error (PyErr.keyNotFound "serviceId"))
      ∧ ∀ v, c.fields.lookup "serviceId" = some v → Connector.serviceId c = Except.ok v)
    ∧ ((c.fields.lookup "type" = none →
        Connector.connectorType c = Except.error (PyErr.keyNotFound "type"))
      ∧ ∀ v, c.fields.lookup "type" = some v → Connector.connectorType c = Except.ok v)
    ∧ ((c.fields.lookup "adminDisabled" = none →
        Connector.adminDisabled c = Except.error (PyErr.keyNotFound "adminDisabled"))
      ∧ ∀ v, c.fields.lookup "adminDisabled" = some v → Connector.adminDisabled c = Except.ok v)
    ∧ ((c.fields.lookup "enabled" = none →
        Connector.enabled c = Except.error (PyErr.keyNotFound "enabled"))
      ∧ ∀ v, c.fields.lookup "enabled" = some v → Connector.enabled c = Except.ok v)
    ∧ ((c.fields.lookup "timezone" = none →
        Connector.timezone c = Except.error (PyErr.keyNotFound "timezone"))
      ∧ ∀ v, c.fields.lookup "timezone" = some v → Connector.timezone c = Except.ok v) := by
  refine ⟨⟨fun h => ?_, fun v h => ?_⟩, ⟨fun h => ?_, fun v h => ?_⟩,
    ⟨fun h => ?_, fun v h => ?_⟩, ⟨fun h => ?_, fun v h => ?_⟩,
    ⟨fun h => ?_, fun v h => ?_⟩⟩ <;>
  simp [Connector.serviceId, Connector.connectorType, Connector.adminDisabled,
    Connector.enabled, Connector.timezone, h]

/-- Concrete check on `sampleConnector`, whose backing mapping has `type` but
lacks `serviceId`, `adminDisabled`, `enabled` and `timezone`. -/
theorem required_accessors_key_errors_witness :
    (Connector.serviceId sampleConnector = Except.error (PyErr.keyNotFound "serviceId"))
    ∧ (Connector.connectorType sampleConnector = Except.ok (JsonValue.str "cloudant"))
    ∧ (Connector.adminDisabled sampleConnector = Except.error (PyErr.keyNotFound "adminDisabled"))
    ∧ (Connector.enabled sampleConnector = Except.error (PyErr.keyNotFound "enabled"))
    ∧ (Connector.timezone sampleConnector = Except.error (PyErr.keyNotFound "timezone")) :=
  ⟨(required_accessors_key_errors sampleConnector).1.1 rfl,
   (required_accessors_key_errors sampleConnector).2.1.2 (JsonValue.str "cloudant") rfl,
   (required_accessors_key_errors sampleConnector).2.2.1.1 rfl,
   (required_accessors_key_errors sampleConnector).2.2.2.1.1 rfl,
   (required_accessors_key_errors sampleConnector).2.2.2.2.1 rfl⟩

/-- Claim C9: every accessor property is a pure projection of the backing
mapping.  Read as a state-passing method call, each accessor hands the
receiver back unchanged (so repeated reads in any order see the same state),
and its value depends only on the backing mapping: two items with equal
backing mappings agree on every accessor. -/
theorem accessors_pure_projection (c1 c2 : Connector) (h : c1.fields = c2.fields) :
    ((Connector.getServiceId c1).2 = c1
      ∧ (Connector.getConnectorType c1).2 = c1
      ∧ (Connector.getConfiguration c1).2 = c1
      ∧ (Connector.getAdminDisabled c1).2 = c1
      ∧ (Connector.getEnabled c1).2 = c1
      ∧ (Connector.getTimezone c1).2 = c1)
    ∧ ((Connector.getServiceId c1).1 = (Connector.getServiceId c2).1
      ∧ (Connector.getConnectorType c1).1 = (Connector.getConnectorType c2).1
      ∧ (Connector.getConfiguration c1).1 = (Connector.getConfiguration c2).1
      ∧ (Connector.getAdminDisabled c1).1 = (Connector.getAdminDisabled c2).1
      ∧ (Connector.getEnabled c1).1 = (Connector.getEnabled c2).1
      ∧ (Connector.getTimezone c1).1 = (Connector.getTimezone c2).1) := by
  refine ⟨⟨rfl, rfl, rfl, rfl, rfl, rfl⟩, ?_, ?_, ?_, ?_, ?_, ?_⟩ <;>
  simp [Connector.getServiceId, Connector.getConnectorType, Connector.getConfiguration,
    Connector.getAdminDisabled, Connector.getEnabled, Connector.getTimezone,
    Connector.serviceId, Connector.connectorType, Connector.configuration,
    Connector.adminDisabled, Connector.enabled, Connector.timezone, h]

/-- Concrete check of purity: reading `serviceId` leaves `sampleConnector`
unchanged, and `configuration` agrees between two items sharing a backing
mapping but differing in a sub-resource handle. -/
theorem accessors_pure_projection_witness :
    ((Connector.getServiceId sampleConnector).2 = sampleConnector)
    ∧ (Connector.getConfiguration sampleConnector).1
        = (Connector.getConfiguration sampleConnectorVariant).1 :=
  ⟨(accessors_pure_projection sampleConnector sampleConnectorVariant rfl).1.1,
   (accessors_pure_projection sampleConnector sampleConnectorVariant rfl).2.2.2.1⟩

/-- Claim C10: constructing a `Connector` succeeds only when the kwargs
mapping carries both `id` and `type` — on success the backing mapping is the
kwargs, so the item contains both keys — and for every mapping lacking `id`
or lacking `type`, construction fails with a key-not-found error. -/
theorem construction_requires_id_and_type (kwargs : List (String × JsonValue)) :
    (∀ c, Connector.construct kwargs = Except.ok c →
      (∃ v, kwargs.lookup "id" = some v)
        ∧ (∃ v, kwargs.lookup "type" = some v)
        ∧ c.fields = kwargs)
    ∧ (kwargs.lookup "id" = none ∨ kwargs.lookup "type" = none →
      ∃ k, Connector.construct kwargs = Except.error (PyErr.keyNotFound k)
        ∧ (k = "id" ∨ k = "type")) := by
  constructor
  · intro c hc
    cases hid : kwargs.lookup "id" with
    | none => simp [Connector.construct, hid] at hc
    | some idv =>
      cases hty : kwargs.lookup "type" with
      | none => simp [Connector.construct, hid, hty] at hc
      | some tyv =>
        simp [Connector.construct, hid, hty] at hc
        exact ⟨⟨idv, rfl⟩, ⟨tyv, rfl⟩, by rw [← hc]⟩
  · intro h
    cases hid : kwargs.lookup "id" with
    | none => exact ⟨"id", by simp [Connector.construct, hid], Or.inl rfl⟩
    | some idv =>
      cases hty : kwargs.lookup "type" with
      | none => exact ⟨"type", by simp [Connector.construct, hid, hty], Or.inr rfl⟩
      | some tyv =>
        rcases h with h | h
        · rw [hid] at h
          exact absurd h (by simp)
        · rw [hty] at h
          exact absurd h (by simp)

/-- Concrete check: a mapping with `type` but no `id` makes construction
fail with a key-not-found error. -/
theorem construction_requires_id_and_type_witness :
    ∃ k, Connector.construct [("type", JsonValue.str "cloudant")]
        = Except.error (PyErr.keyNotFound k) ∧ (k = "id" ∨ k = "type") :=
  (construction_requires_id_and_type [("type", JsonValue.str "cloudant")]).2 (Or.inl rfl)
